import Mathlib

/-!
Verification development for the sw1tch Matrix admin command bus
(sw1tch/utilities/matrix.py and sw1tch/routes/admin.py).

Conventions of the shallow embedding:
* Network calls of the nio AsyncClient are external collaborators; their
  outcomes (raise / error attribute / success) are supplied as environment
  parameters to each modelled operation.
* Python time.time() values are modelled as natural numbers.  Event
  server timestamps are kept in milliseconds and the command issue time is
  likewise kept in milliseconds, so the Python comparison
  event.server_timestamp / 1000.0 >= query_time is the Nat comparison
  query_time_ms <= server_timestamp.  The staleness clock of the
  connection manager is kept in seconds, matching the 300 second window.
* The Python re module is an external library; it is modelled by a small
  executable regex engine covering the fragment actually used by the
  repository (literal characters, the dot wildcard, and the star
  quantifier, with the IGNORECASE flag realised by lower casing).
* File system reads (the ban pattern file) are modelled by an
  Option String argument: none models FileNotFoundError or any other read
  failure, some c models a readable file with contents c.
* String helpers (split, strip, lower) are implemented over the character
  list of the string so that every definition evaluates inside the kernel.
-/

/-! ### Character level string helpers mirroring Python primitives -/

def isWs (c : Char) : Bool := c.isWhitespace

/-- Python s.split with separator a newline, keeping empty parts. -/
def splitNlChars : List Char → List (List Char)
  | [] => [[]]
  | '\n' :: rest => [] :: splitNlChars rest
  | c :: rest =>
    match splitNlChars rest with
    | l :: ls => (c :: l) :: ls
    | [] => [[c]]

def splitLines (s : String) : List String :=
  (splitNlChars s.data).map String.mk

/-- Python s.strip(): drop leading and trailing whitespace. -/
def trimChars (cs : List Char) : List Char :=
  ((cs.dropWhile isWs).reverse.dropWhile isWs).reverse

def pyStrip (s : String) : String := String.mk (trimChars s.data)

def pyLower (s : String) : String := String.mk (s.data.map Char.toLower)

def startsWithHash (s : String) : Bool :=
  match s.data with
  | '#' :: _ => true
  | _ => false

deriving instance DecidableEq for Except

/-! ### A small regex engine: model of the fragment of Python re used here -/

inductive RAtom where
  | lit (c : Char)
  | dot
deriving DecidableEq

inductive RPiece where
  | once (a : RAtom)
  | star (a : RAtom)
deriving DecidableEq

def atomOf (c : Char) : RAtom :=
  if c = '.' then RAtom.dot else RAtom.lit c

def parseRE : List Char → List RPiece
  | [] => []
  | c :: '*' :: rest => RPiece.star (atomOf c) :: parseRE rest
  | c :: rest => RPiece.once (atomOf c) :: parseRE rest

def amatch : RAtom → Char → Bool
  | RAtom.lit c, d => c = d
  | RAtom.dot, _ => true

/-- Fueled matcher: does the piece list match some prefix of the character
list?  Every recursive call strictly decreases the lexicographic measure
(string length, pattern length), so fuel (pattern length + 1) times
(string length + 1) always suffices; the fuel only makes the recursion
structural so that the kernel can evaluate it. -/
def matchREFuel : Nat → List RPiece → List Char → Bool
  | 0, _, _ => false
  | _ + 1, [], _ => true
  | _ + 1, RPiece.once _ :: _, [] => false
  | fuel + 1, RPiece.once a :: ps, c :: cs => amatch a c && matchREFuel fuel ps cs
  | fuel + 1, RPiece.star _ :: ps, [] => matchREFuel fuel ps []
  | fuel + 1, RPiece.star a :: ps, c :: cs =>
      matchREFuel fuel ps (c :: cs) || (amatch a c && matchREFuel fuel (RPiece.star a :: ps) cs)

def matchRE (p : List RPiece) (s : List Char) : Bool :=
  matchREFuel ((p.length + 1) * (s.length + 1)) p s

/-- Model of re.search: try to match at every start position. -/
def reSearchChars (p : List RPiece) : List Char → Bool
  | [] => matchRE p []
  | c :: cs => matchRE p (c :: cs) || reSearchChars p cs

/-- Model of re.search(pattern, s, re.IGNORECASE) for the supported fragment. -/
def reSearchIgnoreCase (pattern s : String) : Bool :=
  reSearchChars (parseRE (pyLower pattern).data) (pyLower s).data

/-! ### Ban pattern lookup (check_banned_room_name / get_matched_pattern) -/

/-- The list comprehension of check_banned_room_name and
get_matched_pattern: keep lines whose strip is nonempty and that do not
start with a hash, and strip each kept line.  Iterating a Python file
yields each line with its trailing newline; stripping and the startswith
test are insensitive to that newline, so lines are modelled by
splitting the contents on the newline character. -/
def parseBanPatterns (contents : String) : List String :=
  ((splitLines contents).filter
    (fun line => !(pyStrip line == "") && !(startsWithHash line))).map pyStrip

/-- The for loop of get_matched_pattern: first pattern whose search hits. -/
def firstMatchingPattern (room_name : String) : List String → String
  | [] => ""
  | p :: ps => if reSearchIgnoreCase p room_name then p else firstMatchingPattern room_name ps

/-- The for loop of check_banned_room_name. -/
def anyPatternMatches (room_name : String) : List String → Bool
  | [] => false
  | p :: ps => if reSearchIgnoreCase p room_name then true else anyPatternMatches room_name ps

/-- get_matched_pattern of sw1tch/utilities/matrix.py; the file argument is
none when opening or reading the pattern file fails (the bare except
returns the empty string). -/
def get_matched_pattern (file : Option String) (room_name : String) : String :=
  match file with
  | none => ""
  | some contents => firstMatchingPattern room_name (parseBanPatterns contents)

/-- check_banned_room_name of sw1tch/utilities/matrix.py; FileNotFoundError
and any other read error return false. -/
def check_banned_room_name (file : Option String) (room_name : String) : Bool :=
  match file with
  | none => false
  | some contents => anyPatternMatches room_name (parseBanPatterns contents)

/-! ### Room list decoder (parse_rooms_response of sw1tch/routes/admin.py) -/

structure RoomSummary where
  room_id : String
  members : Nat
  name : String
deriving DecidableEq

def natOfDigits (ds : List Char) : Nat :=
  ds.foldl (fun n c => 10 * n + (c.toNat - '0'.toNat)) 0

def membersLit : List Char := "Members: ".data

def nameLit : List Char := "Name: ".data

/-- Model of re.match applied to one line with the pattern
(!\S+)\s+Members: (\d+)\s+Name: (.*) followed by the construction of the
room dictionary (the name group is stripped, the digits group passes
through int).  Because every greedy piece of this pattern is followed by
a piece that cannot consume the same characters, the backtracking match
is equivalent to this deterministic longest-run parse. -/
def parseRoomLine (line : String) : Option RoomSummary :=
  match line.data with
  | '!' :: rest =>
    let idChars := rest.takeWhile (fun c => !isWs c)
    if idChars.isEmpty then none
    else
      let afterId := rest.drop idChars.length
      let ws1 := afterId.takeWhile isWs
      if ws1.isEmpty then none
      else
        let t1 := afterId.drop ws1.length
        if membersLit.isPrefixOf t1 then
          let t2 := t1.drop membersLit.length
          let digits := t2.takeWhile Char.isDigit
          if digits.isEmpty then none
          else
            let t3 := t2.drop digits.length
            let ws2 := t3.takeWhile isWs
            if ws2.isEmpty then none
            else
              let t4 := t3.drop ws2.length
              if nameLit.isPrefixOf t4 then
                some { room_id := String.mk ('!' :: idChars),
                       members := natOfDigits digits,
                       name := String.mk (trimChars (t4.drop nameLit.length)) }
              else none
        else none
  | _ => none

/-- The for loop of parse_rooms_response: append the parse of each
matching line, skip the others. -/
def parseRoomLines : List String → List RoomSummary
  | [] => []
  | l :: ls =>
    match parseRoomLine l with
    | some r => r :: parseRoomLines ls
    | none => parseRoomLines ls

/-- parse_rooms_response of sw1tch/routes/admin.py. -/
def parse_rooms_response (response : String) : List RoomSummary :=
  parseRoomLines (splitLines response)

/-! ### Member list decoder (parse_members_response of sw1tch/routes/admin.py) -/

structure MemberEntry where
  user_id : String
  display_name : String
deriving DecidableEq

/-- Backtracking loop for the member pattern: the group following the at
sign is the longest nonspace run that still leaves a pipe and a final
nonspace group; try prefix lengths k, k-1, ..., 1. -/
def memberTryK (rest : List Char) : Nat → Option MemberEntry
  | 0 => none
  | k + 1 =>
    let pre := rest.take (k + 1)
    let after := rest.drop (k + 1)
    match after.dropWhile isWs with
    | '|' :: t =>
      let dn := (t.dropWhile isWs).takeWhile (fun c => !isWs c)
      if dn.isEmpty then memberTryK rest k
      else some { user_id := String.mk ('@' :: pre), display_name := String.mk dn }
    | _ => memberTryK rest k

/-- Model of re.match applied to one line with the pattern
(@\S+)\s*\|\s*(\S+). -/
def parseMemberLine (line : String) : Option MemberEntry :=
  match line.data with
  | '@' :: rest =>
    let run := rest.takeWhile (fun c => !isWs c)
    if run.isEmpty then none else memberTryK rest run.length
  | _ => none

def parseMemberLines : List String → List MemberEntry
  | [] => []
  | l :: ls =>
    match parseMemberLine l with
    | some m => m :: parseMemberLines ls
    | none => parseMemberLines ls

/-- parse_members_response of sw1tch/routes/admin.py. -/
def parse_members_response (response : String) : List MemberEntry :=
  parseMemberLines (splitLines response)

example : parse_rooms_response "!a:x Members: 5 Name: Alpha \njunk" =
    [{ room_id := "!a:x", members := 5, name := "Alpha" }] := by decide

example : parse_members_response "@u:x | U" =
    [{ user_id := "@u:x", display_name := "U" }] := by decide

example : parseMemberLine "@user|name" =
    some { user_id := "@user", display_name := "name" } := by decide

example : reSearchIgnoreCase ".*spam.*" "Free Spam Giveaway" = true := by decide

example : reSearchIgnoreCase ".*spam.*" "Quiet Room" = false := by decide

/-! ### PersistentMatrixBot: state, connection lifecycle, command dispatch -/

/-- Network operations performed against the homeserver, recorded as a log. -/
inductive NetOp where
  | login
  | join
  | sync
  | sendMsg
  | logout
  | close
deriving DecidableEq

/-- Exceptions surfacing from the bot: the TimeoutError raised by
send_admin_command when the wait loop expires, and every other Exception
carrying a message. -/
inductive Err where
  | timeoutErr
  | other (msg : String)
deriving DecidableEq

structure BotState where
  client : Option Nat
  connected : Bool
  last_activity : Option Nat
deriving DecidableEq

/-- The state built by PersistentMatrixBot.__init__. -/
def initBotState : BotState :=
  { client := none, connected := false, last_activity := none }

/-- Outcome of a call returning a response object with an optional error
attribute (login, sync, room_send): the call can raise, return a response
whose error attribute is set, or return a clean response. -/
inductive SyncRes where
  | raised (msg : String)
  | errored (msg : String)
  | good
deriving DecidableEq

/-- Outcome of a call whose response is not inspected (join, logout, ...). -/
inductive Raises where
  | ok
  | raise (msg : String)
deriving DecidableEq

/-- Environment for one _connect attempt: the fresh client handle and the
outcomes of login, join and the initial sync, plus the time stamped into
last_activity on success. -/
structure ConnectEnv where
  newClient : Nat
  loginRes : SyncRes
  joinRes : Raises
  syncRes : SyncRes
  now : Nat
deriving DecidableEq

/-- The state written by the except branch of _connect: connected False,
client None, last_activity untouched. -/
def connFail (s : BotState) : BotState :=
  { client := none, connected := false, last_activity := s.last_activity }

/-- PersistentMatrixBot._connect.  The client attribute is assigned before
login; on any failure the except branch resets connected and client and
re-raises; on success connected is set and last_activity stamped. -/
def _connect (cenv : ConnectEnv) (s : BotState) : Except Err Unit × BotState × List NetOp :=
  match cenv.loginRes with
  | SyncRes.raised m => (Except.error (Err.other m), connFail s, [NetOp.login])
  | SyncRes.errored m =>
      (Except.error (Err.other ("Login error: " ++ m)), connFail s, [NetOp.login])
  | SyncRes.good =>
    match cenv.joinRes with
    | Raises.raise m => (Except.error (Err.other m), connFail s, [NetOp.login, NetOp.join])
    | Raises.ok =>
      match cenv.syncRes with
      | SyncRes.raised m =>
          (Except.error (Err.other m), connFail s, [NetOp.login, NetOp.join, NetOp.sync])
      | SyncRes.errored m =>
          (Except.error (Err.other ("Sync error: " ++ m)), connFail s,
           [NetOp.login, NetOp.join, NetOp.sync])
      | SyncRes.good =>
          (Except.ok (),
           { client := some cenv.newClient, connected := true, last_activity := some cenv.now },
           [NetOp.login, NetOp.join, NetOp.sync])

/-- PersistentMatrixBot._disconnect: logout and close are attempted when a
client exists (their own failures are swallowed), then client and
connected are cleared. -/
def _disconnect (s : BotState) : BotState × List NetOp :=
  ({ client := none, connected := false, last_activity := s.last_activity },
   if s.client.isSome then [NetOp.logout, NetOp.close] else [])

/-- The staleness test of ensure_connected: connected, with a (truthy)
last_activity further than 300 seconds in the past. -/
def isStale (now : Nat) (s : BotState) : Bool :=
  match s.last_activity with
  | some la => s.connected && decide (300 < now - la)
  | none => false

/-- First step of ensure_connected: disconnect when a reconnect is forced
on a connected session. -/
def ensureForce (force : Bool) (s : BotState) : BotState × List NetOp :=
  if force && s.connected then _disconnect s else (s, [])

/-- Second step of ensure_connected: disconnect a stale session. -/
def ensureStale (now : Nat) (p : BotState × List NetOp) : BotState × List NetOp :=
  if isStale now p.1 then ((_disconnect p.1).1, p.2 ++ (_disconnect p.1).2) else p

/-- Last step of ensure_connected: connect when not connected or the
client handle is gone. -/
def ensureGo (cenv : ConnectEnv) (p : BotState × List NetOp) :
    Except Err Unit × BotState × List NetOp :=
  if !p.1.connected || p.1.client.isNone then
    ((_connect cenv p.1).1, (_connect cenv p.1).2.1, p.2 ++ (_connect cenv p.1).2.2)
  else (Except.ok (), p.1, p.2)

/-- PersistentMatrixBot.ensure_connected (the body under the lock):
an optional forced disconnect, an optional staleness disconnect, then a
connect when not connected or the client is gone. -/
def ensure_connected (force : Bool) (now : Nat) (cenv : ConnectEnv) (s : BotState) :
    Except Err Unit × BotState × List NetOp :=
  ensureGo cenv (ensureStale now (ensureForce force s))

/-! ### The response correlation loop of send_admin_command -/

/-- A control room timeline event as seen by the wait loop.  isMsg models
the isinstance filter for RoomMessageText / RoomMessageNotice; the server
timestamp is in milliseconds. -/
structure MEvent where
  sender : String
  server_timestamp : Nat
  body : String
  isMsg : Bool
deriving DecidableEq

/-- One iteration of the wait loop: the sync call raises (caught, loop
continues), returns a response with the error attribute set (logged, loop
continues), or delivers the new timeline events of the admin room. -/
inductive Batch where
  | raised (msg : String)
  | errored (msg : String)
  | good (events : List MEvent)
deriving DecidableEq

/-- Eligibility filter of the wait loop: a message event from the admin
responder whose event time is at or after the issue time. -/
def eligB (admin : String) (qt : Nat) (e : MEvent) : Bool :=
  e.isMsg && e.sender == admin && decide (qt ≤ e.server_timestamp)

/-- The for loop over one batch of message events.  The Bool records
whether some eligible event was seen (Python stamps last_activity for
every eligible event, matching or not). -/
def scanEvents (admin : String) (qt : Nat) (pattern : Option String) :
    List MEvent → Option String × Bool
  | [] => (none, false)
  | e :: es =>
    if eligB admin qt e then
      match pattern with
      | none => (some e.body, true)
      | some p =>
        if reSearchIgnoreCase p e.body then (some e.body, true)
        else ((scanEvents admin qt pattern es).1, true)
    else scanEvents admin qt pattern es

/-- The while loop of send_admin_command over successive sync batches; the
batch list ending models the timeout budget expiring. -/
def correlate (admin : String) (qt : Nat) (pattern : Option String) :
    List Batch → Option String × Bool
  | [] => (none, false)
  | Batch.raised _ :: rest => correlate admin qt pattern rest
  | Batch.errored _ :: rest => correlate admin qt pattern rest
  | Batch.good evs :: rest =>
    match scanEvents admin qt pattern evs with
    | (some b, _) => (some b, true)
    | (none, saw) =>
      let r := correlate admin qt pattern rest
      (r.1, saw || r.2)

def goodEvents : Batch → Option (List MEvent)
  | Batch.good evs => some evs
  | _ => none

/-- All timeline events delivered by the successful sync batches, in
stream order. -/
def batchesEvents (bs : List Batch) : List MEvent :=
  (bs.filterMap goodEvents).flatten

/-! ### send_admin_command -/

/-- Environment of one send_admin_command call: outcomes for the initial
ensure_connected, the pre-send sync (and, on its error, the forced
reconnect plus retry sync), the room_send, and the wait loop batches. -/
structure SendEnv where
  ensure1 : ConnectEnv
  now1 : Nat
  preSync1 : SyncRes
  ensure2 : ConnectEnv
  now2 : Nat
  preSync2 : SyncRes
  adminUser : String
  queryTime : Nat
  sendRes : SyncRes
  batches : List Batch
  respNow : Nat
deriving DecidableEq

/-- The except branch of send_admin_command: mark disconnected, re-raise. -/
def failConn (s : BotState) : BotState := { s with connected := false }

/-- The part of send_admin_command after the starting cursor is fixed:
send the command, then run the wait loop; the loop expiring raises
TimeoutError which the outer except turns into a disconnected session. -/
def sendBody (pattern : Option String) (env : SendEnv) (s : BotState) (log : List NetOp) :
    Except Err String × BotState × List NetOp :=
  match env.sendRes with
  | SyncRes.raised m => (Except.error (Err.other m), failConn s, log ++ [NetOp.sendMsg])
  | SyncRes.errored m =>
      (Except.error (Err.other ("Failed to send command: " ++ m)), failConn s,
       log ++ [NetOp.sendMsg])
  | SyncRes.good =>
    match correlate env.adminUser env.queryTime pattern env.batches with
    | (some body, _) =>
        (Except.ok body, { s with last_activity := some env.respNow }, log ++ [NetOp.sendMsg])
    | (none, saw) =>
        let sU := if saw then { s with last_activity := some env.respNow } else s
        (Except.error Err.timeoutErr, { sU with connected := false }, log ++ [NetOp.sendMsg])

/-- PersistentMatrixBot.send_admin_command.  After ensure_connected, the
pre-send sync fixes the starting cursor; if that sync reports an error the
code forces a reconnect and retries the sync once, proceeding even when
the retry reports an error again; only a raising call propagates (through
the except branch that clears the connected flag). -/
def send_admin_command (command : String) (pattern : Option String) (env : SendEnv)
    (s : BotState) : Except Err String × BotState × List NetOp :=
  match ensure_connected false env.now1 env.ensure1 s with
  | (Except.error e, s1, log0) => (Except.error e, s1, log0)
  | (Except.ok _, s1, log0) =>
    match env.preSync1 with
    | SyncRes.raised m => (Except.error (Err.other m), failConn s1, log0 ++ [NetOp.sync])
    | SyncRes.good => sendBody pattern env s1 (log0 ++ [NetOp.sync])
    | SyncRes.errored _ =>
      match ensure_connected true env.now2 env.ensure2 s1 with
      | (Except.error e, s2, log1) =>
          (Except.error e, failConn s2, log0 ++ [NetOp.sync] ++ log1)
      | (Except.ok _, s2, log1) =>
        match env.preSync2 with
        | SyncRes.raised m =>
            (Except.error (Err.other m), failConn s2,
             log0 ++ [NetOp.sync] ++ log1 ++ [NetOp.sync])
        | _ => sendBody pattern env s2 (log0 ++ [NetOp.sync] ++ log1 ++ [NetOp.sync])

/-! ### The correlation loop of get_matrix_users -/

/-- The inner for loop of get_matrix_users: first eligible event. -/
def findFirstQual (admin : String) (qt : Nat) : List MEvent → Option MEvent
  | [] => none
  | e :: es => if eligB admin qt e then some e else findFirstQual admin qt es

/-- The while loop of get_matrix_users.  A found event with an empty body
leaves the response falsy, so the outer loop keeps polling (and an empty
response at expiry is reported as no response). -/
def usersCorrelate (admin : String) (qt : Nat) : List (List MEvent) → Option String
  | [] => none
  | evs :: rest =>
    match findFirstQual admin qt evs with
    | some e => if e.body == "" then usersCorrelate admin qt rest else some e.body
    | none => usersCorrelate admin qt rest

/-! ### deactivate_user -/

/-- Outcome of the login call of deactivate_user. -/
inductive LoginRes where
  | ok
  | errorAttr (msg : String)
  | raised (msg : String)
deriving DecidableEq

/-- Outcome of one awaited call that either succeeds or raises. -/
inductive CallRes where
  | ok
  | raised (msg : String)
deriving DecidableEq

structure DeactivateEnv where
  loginRes : LoginRes
  joinRes : CallRes
  syncRes : CallRes
  sendRes : CallRes
  logoutRes : CallRes
  closeMainRes : CallRes
  closeExcRes : CallRes
deriving DecidableEq

/-- deactivate_user of sw1tch/utilities/matrix.py.  The whole body is one
try: any exception reaches the except branch, which closes the client and
returns False; the function raises only if that close itself raises.  No
response from the admin responder is awaited: after room_send the code
only sleeps one second, logs out, closes, and returns True. -/
def deactivate_user (user : String) (env : DeactivateEnv) : Except String Bool :=
  let exc : Except String Bool :=
    match env.closeExcRes with
    | CallRes.ok => Except.ok false
    | CallRes.raised m => Except.error m
  match env.loginRes with
  | LoginRes.raised _ => exc
  | LoginRes.errorAttr _ => exc
  | LoginRes.ok =>
    match env.joinRes with
    | CallRes.raised _ => exc
    | CallRes.ok =>
      match env.syncRes with
      | CallRes.raised _ => exc
      | CallRes.ok =>
        match env.sendRes with
        | CallRes.raised _ => exc
        | CallRes.ok =>
          match env.logoutRes with
          | CallRes.raised _ => exc
          | CallRes.ok =>
            match env.closeMainRes with
            | CallRes.raised _ => exc
            | CallRes.ok => Except.ok true

/-! ### The streaming moderation scan (moderate_rooms_stream.event_generator) -/

/-- Errors raised by matrix_bot.send_admin_command as seen by the
generator: the TimeoutError of the wait loop, or any other exception. -/
inductive GErr where
  | timeout
  | other (msg : String)
deriving DecidableEq

/-- The str(e) rendering used when an exception is stringified into an
error event. -/
def gerrText : GErr → String
  | GErr.timeout => "No response from admin bot within timeout"
  | GErr.other m => m

/-- Server sent events emitted by the generator, modelled structurally. -/
inductive ScanEv where
  | starting
  | connectedEv
  | progress (page : Nat)
  | infoSmall
  | bannedFound (room_id room_name : String) (total_members : Nat)
      (matched_pattern : String) (total_found : Nat)
  | roomMembers (room_id : String) (local_users : List MemberEntry)
  | memberTimeout (room_name : String)
  | memberError (room_name msg : String)
  | pageError (msg : String)
  | complete (totalRooms totalBanned : Nat)
  | fatal (msg : String)
  | fuelOut
deriving DecidableEq

/-- Environment of one streaming scan: the outcome of the initial
ensure_connected, the response (or exception) of the list-rooms command
per page, the response (or exception) of the member-list command per room
id, and the contents of the ban pattern file. -/
structure ScanEnv where
  ensureRes : Option String
  pageResp : Nat → Except GErr String
  membersResp : String → Except GErr String
  banFile : Option String

/-- The member list fetch for one banned room: the inner try of the
generator turns a TimeoutError into a timeout error event and any other
exception into a generic error event; both are non fatal. -/
def memberFetchEvents (env : ScanEnv) (r : RoomSummary) : List ScanEv :=
  match env.membersResp r.room_id with
  | Except.ok resp => [ScanEv.roomMembers r.room_id (parse_members_response resp)]
  | Except.error GErr.timeout => [ScanEv.memberTimeout r.name]
  | Except.error (GErr.other m) => [ScanEv.memberError r.name m]

/-- The for loop over the rooms of one page: skip small rooms, and for
each banned room emit the found event, then the member fetch outcome.
Returns the emitted events and the updated total_banned counter. -/
def roomLoop (env : ScanEnv) : List RoomSummary → Nat → List ScanEv × Nat
  | [], tb => ([], tb)
  | r :: rs, tb =>
    if r.members < 3 then roomLoop env rs tb
    else if check_banned_room_name env.banFile r.name then
      (ScanEv.bannedFound r.room_id r.name r.members
          (get_matched_pattern env.banFile r.name) (tb + 1)
        :: memberFetchEvents env r ++ (roomLoop env rs (tb + 1)).1,
       (roomLoop env rs (tb + 1)).2)
    else roomLoop env rs tb

/-- The while loop over pages.  Fuel bounds the number of pages the model
unrolls; running out of fuel emits the artificial fuelOut marker (the
Python loop is unbounded).  A page fetch exception is caught by the per
page try, emits an error event and breaks the loop; an empty decoded page
breaks silently; a page of only small rooms emits the info event and
breaks. -/
def pageLoop (env : ScanEnv) : Nat → Nat → Nat → Nat → List ScanEv × Nat × Nat
  | 0, _, tr, tb => ([ScanEv.fuelOut], tr, tb)
  | fuel + 1, page, tr, tb =>
    match env.pageResp page with
    | Except.error e => ([ScanEv.progress page, ScanEv.pageError (gerrText e)], tr, tb)
    | Except.ok resp =>
      let rooms := parse_rooms_response resp
      if rooms.isEmpty then ([ScanEv.progress page], tr, tb)
      else if rooms.all (fun r => decide (r.members < 3)) then
        ([ScanEv.progress page, ScanEv.infoSmall], tr, tb)
      else
        (ScanEv.progress page
           :: (roomLoop env rooms tb).1
           ++ (pageLoop env fuel (page + 1) (tr + rooms.length) (roomLoop env rooms tb).2).1,
         (pageLoop env fuel (page + 1) (tr + rooms.length) (roomLoop env rooms tb).2).2)

/-- The event_generator of moderate_rooms_stream.  When the initial
ensure_connected raises, only the starting event and a fatal error event
are emitted; otherwise the page loop runs and the terminal complete event
(with the totals) is always emitted after it. -/
def event_generator (env : ScanEnv) (fuel : Nat) : List ScanEv :=
  match env.ensureRes with
  | some m => [ScanEv.starting, ScanEv.fatal m]
  | none =>
    ScanEv.starting :: ScanEv.connectedEv :: (pageLoop env fuel 1 0 0).1
      ++ [ScanEv.complete (pageLoop env fuel 1 0 0).2.1 (pageLoop env fuel 1 0 0).2.2]

/-! ### Concrete instances used by witnesses and counterexamples -/

def c6Response : String :=
  "Rooms:\n!a:x Members: 5 Name: Alpha\njunk line\n!b:x Members: 12 Name:  Beta Room \n!c:x Members: 3 Name: Gamma\nTotal: 3 rooms"

def c6r1 : RoomSummary := { room_id := "!a:x", members := 5, name := "Alpha" }

def c6r2 : RoomSummary := { room_id := "!b:x", members := 12, name := "Beta Room" }

def c6r3 : RoomSummary := { room_id := "!c:x", members := 3, name := "Gamma" }

def c2Batches : List Batch :=
  [Batch.errored "transient",
   Batch.good [{ sender := "@other:x", server_timestamp := 9000, body := "noise", isMsg := true },
               { sender := "@admin:x", server_timestamp := 4000, body := "stale", isMsg := true },
               { sender := "@admin:x", server_timestamp := 6000, body := "result", isMsg := true }]]

def c4Env1 : ConnectEnv :=
  { newClient := 7, loginRes := SyncRes.good, joinRes := Raises.ok, syncRes := SyncRes.good,
    now := 100 }

def c4Env2 : ConnectEnv :=
  { newClient := 8, loginRes := SyncRes.good, joinRes := Raises.ok, syncRes := SyncRes.good,
    now := 150 }

def c4State : BotState := { client := some 7, connected := true, last_activity := some 100 }

def c9Env : ConnectEnv :=
  { newClient := 7, loginRes := SyncRes.raised "boom", joinRes := Raises.ok,
    syncRes := SyncRes.good, now := 0 }

def c1Env : SendEnv :=
  { ensure1 := c4Env1, now1 := 100, preSync1 := SyncRes.good,
    ensure2 := c4Env2, now2 := 100, preSync2 := SyncRes.good,
    adminUser := "@admin:x", queryTime := 1000, sendRes := SyncRes.good,
    batches := [Batch.good []], respNow := 200 }

def c3Env : SendEnv :=
  { ensure1 := c4Env1, now1 := 100, preSync1 := SyncRes.errored "sync failed",
    ensure2 := c4Env2, now2 := 100, preSync2 := SyncRes.errored "sync failed again",
    adminUser := "@admin:x", queryTime := 1000, sendRes := SyncRes.good,
    batches := [Batch.good [{ sender := "@admin:x", server_timestamp := 2000, body := "OK",
                              isMsg := true }]],
    respNow := 200 }

def c3RaiseEnv : SendEnv :=
  { ensure1 := c4Env1, now1 := 100, preSync1 := SyncRes.raised "boom",
    ensure2 := c4Env2, now2 := 100, preSync2 := SyncRes.good,
    adminUser := "@admin:x", queryTime := 1000, sendRes := SyncRes.good,
    batches := [Batch.good []], respNow := 200 }

def c8Pages : Nat → Except GErr String
  | 1 => Except.ok "!r1:x Members: 5 Name: Spam Palace\n!r2:x Members: 4 Name: spamhub\n!r3:x Members: 2 Name: tiny"
  | 2 => Except.ok "!r4:x Members: 6 Name: SPAM again"
  | _ => Except.ok ""

def c8Members (rid : String) : Except GErr String :=
  if rid = "!r1:x" then Except.error GErr.timeout else Except.ok "@u:x | U"

def c8Env : ScanEnv :=
  { ensureRes := none, pageResp := c8Pages, membersResp := c8Members,
    banFile := some ".*spam.*" }

def c8Expected : List ScanEv :=
  [ScanEv.starting, ScanEv.connectedEv,
   ScanEv.progress 1,
   ScanEv.bannedFound "!r1:x" "Spam Palace" 5 ".*spam.*" 1,
   ScanEv.memberTimeout "Spam Palace",
   ScanEv.bannedFound "!r2:x" "spamhub" 4 ".*spam.*" 2,
   ScanEv.roomMembers "!r2:x" [{ user_id := "@u:x", display_name := "U" }],
   ScanEv.progress 2,
   ScanEv.bannedFound "!r4:x" "SPAM again" 6 ".*spam.*" 3,
   ScanEv.roomMembers "!r4:x" [{ user_id := "@u:x", display_name := "U" }],
   ScanEv.progress 3,
   ScanEv.complete 4 3]

def c10Env : DeactivateEnv :=
  { loginRes := LoginRes.ok, joinRes := CallRes.ok, syncRes := CallRes.ok,
    sendRes := CallRes.ok, logoutRes := CallRes.raised "logout failed",
    closeMainRes := CallRes.ok, closeExcRes := CallRes.ok }

/-! ### Shared lemmas about the connection lifecycle -/

/-- The session invariant: whenever the connected flag is set, a client
handle exists. -/
def botInv (s : BotState) : Prop := s.connected = true → s.client.isSome = true

theorem connect_shape (cenv : ConnectEnv) (s : BotState) :
    _connect cenv s =
      (Except.ok (),
       { client := some cenv.newClient, connected := true, last_activity := some cenv.now },
       [NetOp.login, NetOp.join, NetOp.sync]) ∨
    ∃ m log, _connect cenv s = (Except.error (Err.other m), connFail s, log) := by
  cases h1 : cenv.loginRes <;> cases h2 : cenv.joinRes <;> cases h3 : cenv.syncRes <;>
    simp only [_connect, h1, h2, h3] <;>
    first
      | exact Or.inl trivial
      | exact Or.inl rfl
      | exact Or.inr ⟨_, _, rfl⟩

theorem connect_login_mem (cenv : ConnectEnv) (s : BotState) :
    NetOp.login ∈ (_connect cenv s).2.2 := by
  cases h1 : cenv.loginRes <;> cases h2 : cenv.joinRes <;> cases h3 : cenv.syncRes <;>
    simp [_connect, h1, h2, h3]

theorem connect_no_send (cenv : ConnectEnv) (s : BotState) :
    NetOp.sendMsg ∉ (_connect cenv s).2.2 := by
  cases h1 : cenv.loginRes <;> cases h2 : cenv.joinRes <;> cases h3 : cenv.syncRes <;>
    simp [_connect, h1, h2, h3]

theorem connect_not_timeout (cenv : ConnectEnv) (s : BotState) :
    (_connect cenv s).1 ≠ Except.error Err.timeoutErr := by
  rcases connect_shape cenv s with h | ⟨m, log, h⟩ <;> simp [h]

theorem disconnect_no_send (s : BotState) : NetOp.sendMsg ∉ (_disconnect s).2 := by
  by_cases h : s.client.isSome <;> simp [_disconnect, h]

theorem ensureForce_no_send (f : Bool) (s : BotState) :
    NetOp.sendMsg ∉ (ensureForce f s).2 := by
  by_cases h : (f && s.connected) = true
  · simp only [ensureForce, if_pos h]
    exact disconnect_no_send s
  · simp only [ensureForce, if_neg h]
    simp

theorem ensureStale_no_send (now : Nat) (p : BotState × List NetOp)
    (hp : NetOp.sendMsg ∉ p.2) : NetOp.sendMsg ∉ (ensureStale now p).2 := by
  by_cases h : isStale now p.1 = true
  · simp only [ensureStale, if_pos h, List.mem_append]
    rintro (hc | hc)
    · exact hp hc
    · exact disconnect_no_send _ hc
  · simp only [ensureStale, if_neg h]
    exact hp

/-- Every outcome of ensure_connected: success leaves a connected session
with a client, failure (necessarily a connect failure) leaves a fully
disconnected session; neither path sends a room message. -/
theorem ensure_shape (f : Bool) (now : Nat) (cenv : ConnectEnv) (s : BotState) :
    (∃ s2 log, ensure_connected f now cenv s = (Except.ok (), s2, log) ∧
       s2.connected = true ∧ s2.client.isSome = true ∧ NetOp.sendMsg ∉ log) ∨
    (∃ m s2 log, ensure_connected f now cenv s = (Except.error (Err.other m), s2, log) ∧
       s2.connected = false ∧ s2.client = none ∧ NetOp.sendMsg ∉ log) := by
  have hback : NetOp.sendMsg ∉ (ensureStale now (ensureForce f s)).2 :=
    ensureStale_no_send now _ (ensureForce_no_send f s)
  unfold ensure_connected ensureGo
  by_cases h : (!(ensureStale now (ensureForce f s)).1.connected ||
      (ensureStale now (ensureForce f s)).1.client.isNone) = true
  · rw [if_pos h]
    rcases connect_shape cenv (ensureStale now (ensureForce f s)).1 with hsh | ⟨m, log, hsh⟩
    · left
      rw [hsh]
      refine ⟨_, _, rfl, rfl, rfl, ?_⟩
      simp only [List.mem_append]
      rintro (hc | hc)
      · exact hback hc
      · simp at hc
    · right
      rw [hsh]
      refine ⟨m, _, _, rfl, rfl, rfl, ?_⟩
      simp only [List.mem_append]
      rintro (hc | hc)
      · exact hback hc
      · have hns := connect_no_send cenv (ensureStale now (ensureForce f s)).1
        rw [hsh] at hns
        exact hns hc
  · rw [if_neg h]
    left
    refine ⟨_, _, rfl, ?_, ?_, hback⟩ <;>
      simp only [Bool.or_eq_true, Bool.not_eq_true', Option.isNone_iff_eq_none, not_or,
        Bool.not_eq_false] at h
    · exact h.1
    · cases hcl : (ensureStale now (ensureForce f s)).1.client
      · exact absurd hcl h.2
      · rfl

theorem ensure_ok_state (f : Bool) (now : Nat) (cenv : ConnectEnv) (s s' : BotState)
    (u : Unit) (log : List NetOp)
    (h : ensure_connected f now cenv s = (Except.ok u, s', log)) :
    s'.connected = true ∧ s'.client.isSome = true := by
  rcases ensure_shape f now cenv s with ⟨s2, lg, he, h1, h2, -⟩ | ⟨m, s2, lg, he, -, -, -⟩
  · rw [he] at h
    simp only [Prod.mk.injEq] at h
    obtain ⟨-, rfl, -⟩ := h
    exact ⟨h1, h2⟩
  · rw [he] at h
    exact Except.noConfusion (congrArg Prod.fst h)

theorem ensure_not_timeout (f : Bool) (now : Nat) (cenv : ConnectEnv) (s : BotState) :
    (ensure_connected f now cenv s).1 ≠ Except.error Err.timeoutErr := by
  rcases ensure_shape f now cenv s with ⟨s2, lg, he, -⟩ | ⟨m, s2, lg, he, -⟩ <;>
    rw [he] <;> intro hc
  · exact Except.noConfusion hc
  · injection hc with h'
    exact Err.noConfusion h'

theorem ensure_no_send (f : Bool) (now : Nat) (cenv : ConnectEnv) (s : BotState) :
    NetOp.sendMsg ∉ (ensure_connected f now cenv s).2.2 := by
  rcases ensure_shape f now cenv s with ⟨s2, lg, he, -, -, hn⟩ | ⟨m, s2, lg, he, -, -, hn⟩ <;>
    rw [he] <;> exact hn

theorem ensure_error_state (f : Bool) (now : Nat) (cenv : ConnectEnv) (s s' : BotState)
    (e : Err) (log : List NetOp)
    (h : ensure_connected f now cenv s = (Except.error e, s', log)) :
    s'.connected = false ∧ s'.client = none := by
  rcases ensure_shape f now cenv s with ⟨s2, lg, he, -, -, -⟩ | ⟨m, s2, lg, he, h1, h2, -⟩
  · rw [he] at h
    exact Except.noConfusion (congrArg Prod.fst h)
  · rw [he] at h
    simp only [Prod.mk.injEq] at h
    obtain ⟨-, rfl, -⟩ := h
    exact ⟨h1, h2⟩

theorem ensure_disconnected_login (now : Nat) (cenv : ConnectEnv) (s : BotState)
    (h : s.connected = false) :
    NetOp.login ∈ (ensure_connected false now cenv s).2.2 := by
  have h1 : ensureForce false s = (s, []) := by simp [ensureForce]
  have hstale : isStale now s = false := by
    unfold isStale
    cases hla : s.last_activity
    · rfl
    · simp only [h, Bool.false_and]
  have h2 : ensureStale now (s, ([] : List NetOp)) = (s, []) := by
    simp [ensureStale, hstale]
  have hc : (!s.connected || s.client.isNone) = true := by
    rw [h]
    simp
  unfold ensure_connected
  rw [h1, h2]
  unfold ensureGo
  rw [if_pos hc]
  simp only [List.nil_append]
  exact connect_login_mem cenv s

theorem ensure_connected_noop (now : Nat) (cenv : ConnectEnv) (s : BotState)
    (hc : s.connected = true) (hcl : s.client.isSome = true)
    (hfresh : ∀ la, s.last_activity = some la → ¬ 300 < now - la) :
    ensure_connected false now cenv s = (Except.ok (), s, []) := by
  have h1 : ensureForce false s = (s, []) := by simp [ensureForce]
  have hstale : isStale now s = false := by
    unfold isStale
    cases hla : s.last_activity
    · rfl
    · simp only [hc, Bool.true_and]
      exact decide_eq_false (hfresh _ hla)
  have h2 : ensureStale now (s, ([] : List NetOp)) = (s, []) := by
    simp [ensureStale, hstale]
  obtain ⟨c, hcl2⟩ := Option.isSome_iff_exists.mp hcl
  have hgo : (!s.connected || s.client.isNone) = false := by
    rw [hc, hcl2]
    simp
  unfold ensure_connected
  rw [h1, h2]
  unfold ensureGo
  rw [if_neg (by simp [hgo])]

theorem ensure_init_eq (now : Nat) (cenv : ConnectEnv) :
    ensure_connected false now cenv initBotState =
      ((_connect cenv initBotState).1, (_connect cenv initBotState).2.1,
       (_connect cenv initBotState).2.2) := by
  unfold ensure_connected ensureGo
  simp [ensureForce, ensureStale, isStale, initBotState]

/-! ### Lemmas about the correlation loop -/

theorem headq_append {α : Type} (l1 l2 : List α) :
    (l1 ++ l2).head? = l1.head?.or l2.head? := by
  cases l1 <;> rfl

theorem batchesEvents_cons_raised (m : String) (rest : List Batch) :
    batchesEvents (Batch.raised m :: rest) = batchesEvents rest := by
  simp [batchesEvents, goodEvents, List.filterMap_cons]

theorem batchesEvents_cons_errored (m : String) (rest : List Batch) :
    batchesEvents (Batch.errored m :: rest) = batchesEvents rest := by
  simp [batchesEvents, goodEvents, List.filterMap_cons]

theorem batchesEvents_cons_good (evs : List MEvent) (rest : List Batch) :
    batchesEvents (Batch.good evs :: rest) = evs ++ batchesEvents rest := by
  simp [batchesEvents, goodEvents, List.filterMap_cons]

theorem eligB_props (a : String) (qt : Nat) (e : MEvent) (h : eligB a qt e = true) :
    e.isMsg = true ∧ e.sender = a ∧ qt ≤ e.server_timestamp := by
  simp only [eligB, Bool.and_eq_true, beq_iff_eq, decide_eq_true_eq] at h
  exact ⟨h.1.1, h.1.2, h.2⟩

theorem scanEvents_sound (a : String) (qt : Nat) (pat : Option String) (evs : List MEvent)
    (b : String) (h : (scanEvents a qt pat evs).1 = some b) :
    ∃ e ∈ evs, e.isMsg = true ∧ e.sender = a ∧ qt ≤ e.server_timestamp ∧ e.body = b := by
  induction evs with
  | nil => simp [scanEvents] at h
  | cons e es ih =>
    simp only [scanEvents] at h
    by_cases he : eligB a qt e = true
    · rw [if_pos he] at h
      obtain ⟨h1, h2, h3⟩ := eligB_props a qt e he
      cases pat with
      | none =>
        simp only at h
        injection h with h'
        exact ⟨e, List.mem_cons_self e es, h1, h2, h3, h'⟩
      | some p =>
        simp only at h
        by_cases hm : reSearchIgnoreCase p e.body = true
        · rw [if_pos hm] at h
          simp only at h
          injection h with h'
          exact ⟨e, List.mem_cons_self e es, h1, h2, h3, h'⟩
        · rw [if_neg hm] at h
          simp only at h
          obtain ⟨e', he', p1, p2, p3, p4⟩ := ih h
          exact ⟨e', List.mem_cons_of_mem e he', p1, p2, p3, p4⟩
    · rw [if_neg he] at h
      obtain ⟨e', he', p1, p2, p3, p4⟩ := ih h
      exact ⟨e', List.mem_cons_of_mem e he', p1, p2, p3, p4⟩

theorem correlate_sound (a : String) (qt : Nat) (pat : Option String) (bs : List Batch)
    (b : String) (h : (correlate a qt pat bs).1 = some b) :
    ∃ e ∈ batchesEvents bs,
      e.isMsg = true ∧ e.sender = a ∧ qt ≤ e.server_timestamp ∧ e.body = b := by
  induction bs with
  | nil => simp [correlate] at h
  | cons bt rest ih =>
    cases bt with
    | raised m =>
      rw [batchesEvents_cons_raised]
      exact ih (by simpa [correlate] using h)
    | errored m =>
      rw [batchesEvents_cons_errored]
      exact ih (by simpa [correlate] using h)
    | good evs =>
      rw [batchesEvents_cons_good]
      simp only [correlate] at h
      cases hscan : scanEvents a qt pat evs with
      | mk o saw =>
        rw [hscan] at h
        cases o with
        | some b' =>
          simp only at h
          injection h with h'
          obtain ⟨e, he, p1, p2, p3, p4⟩ := scanEvents_sound a qt pat evs b' (by rw [hscan])
          exact ⟨e, List.mem_append_left _ he, p1, p2, p3, h' ▸ p4⟩
        | none =>
          simp only at h
          obtain ⟨e, he, p1, p2, p3, p4⟩ := ih h
          exact ⟨e, List.mem_append_right _ he, p1, p2, p3, p4⟩

theorem scanEvents_pattern_eq (a : String) (qt : Nat) (p : String) (evs : List MEvent) :
    (scanEvents a qt (some p) evs).1 =
      ((evs.filter (fun e => eligB a qt e && reSearchIgnoreCase p e.body)).head?).map
        MEvent.body := by
  induction evs with
  | nil => rfl
  | cons e es ih =>
    by_cases he : eligB a qt e = true
    · by_cases hm : reSearchIgnoreCase p e.body = true
      · simp [scanEvents, he, hm, List.filter_cons]
      · simp [scanEvents, he, hm, List.filter_cons, ih]
    · simp [scanEvents, he, List.filter_cons, ih]

theorem correlate_pattern_eq (a : String) (qt : Nat) (p : String) (bs : List Batch) :
    (correlate a qt (some p) bs).1 =
      (((batchesEvents bs).filter
          (fun e => eligB a qt e && reSearchIgnoreCase p e.body)).head?).map MEvent.body := by
  induction bs with
  | nil => rfl
  | cons bt rest ih =>
    cases bt with
    | raised m =>
      rw [batchesEvents_cons_raised]
      simpa [correlate] using ih
    | errored m =>
      rw [batchesEvents_cons_errored]
      simpa [correlate] using ih
    | good evs =>
      rw [batchesEvents_cons_good]
      have hs := scanEvents_pattern_eq a qt p evs
      cases hscan : scanEvents a qt (some p) evs with
      | mk o saw =>
        rw [hscan] at hs
        simp only at hs
        cases o with
        | some b' =>
          simp only [correlate, hscan]
          rw [List.filter_append, headq_append]
          obtain ⟨e, he1, he2⟩ := Option.map_eq_some'.mp hs.symm
          rw [he1]
          simp [Option.or, he2]
        | none =>
          simp only [correlate, hscan]
          rw [List.filter_append, headq_append]
          have hnone : (evs.filter (fun e => eligB a qt e && reSearchIgnoreCase p e.body)).head?
              = none := by
            cases hf : (evs.filter (fun e => eligB a qt e && reSearchIgnoreCase p e.body)).head?
            · rfl
            · rw [hf] at hs
              simp at hs
          rw [hnone]
          simpa [Option.or] using ih

theorem findFirstQual_sound (a : String) (qt : Nat) (evs : List MEvent) (e : MEvent)
    (h : findFirstQual a qt evs = some e) : e ∈ evs ∧ eligB a qt e = true := by
  induction evs with
  | nil => simp [findFirstQual] at h
  | cons e' es ih =>
    simp only [findFirstQual] at h
    by_cases he : eligB a qt e' = true
    · rw [if_pos he] at h
      injection h with h'
      cases h'
      exact ⟨List.mem_cons_self _ _, he⟩
    · rw [if_neg he] at h
      obtain ⟨h1, h2⟩ := ih h
      exact ⟨List.mem_cons_of_mem e' h1, h2⟩

theorem usersCorrelate_sound (a : String) (qt : Nat) (bss : List (List MEvent)) (b : String)
    (h : usersCorrelate a qt bss = some b) :
    ∃ e ∈ bss.flatten,
      e.isMsg = true ∧ e.sender = a ∧ qt ≤ e.server_timestamp ∧ e.body = b := by
  induction bss with
  | nil => simp [usersCorrelate] at h
  | cons evs rest ih =>
    simp only [usersCorrelate] at h
    rw [List.flatten_cons]
    cases hf : findFirstQual a qt evs with
    | none =>
      rw [hf] at h
      obtain ⟨e, he, p⟩ := ih h
      exact ⟨e, List.mem_append_right _ he, p⟩
    | some e =>
      rw [hf] at h
      simp only at h
      by_cases hb : (e.body == "") = true
      · rw [if_pos hb] at h
        obtain ⟨e', he', p⟩ := ih h
        exact ⟨e', List.mem_append_right _ he', p⟩
      · rw [if_neg hb] at h
        injection h with h'
        obtain ⟨h1, h2⟩ := findFirstQual_sound a qt evs e hf
        obtain ⟨p1, p2, p3⟩ := eligB_props a qt e h2
        exact ⟨e, List.mem_append_left _ h1, p1, p2, p3, h'⟩

/-! ### Lemmas about send_admin_command -/

theorem sendBody_timeout_eq (pat : Option String) (env : SendEnv) (t : BotState)
    (lg : List NetOp) (s' : BotState) (log' : List NetOp)
    (h : sendBody pat env t lg = (Except.error Err.timeoutErr, s', log')) :
    s'.connected = false := by
  unfold sendBody at h
  cases hs : env.sendRes with
  | raised m =>
    rw [hs] at h
    simp only [Prod.mk.injEq] at h
    injection h.1 with h1'
    exact Err.noConfusion h1'
  | errored m =>
    rw [hs] at h
    simp only [Prod.mk.injEq] at h
    injection h.1 with h1'
    exact Err.noConfusion h1'
  | good =>
    rw [hs] at h
    cases hc : correlate env.adminUser env.queryTime pat env.batches with
    | mk o saw =>
      rw [hc] at h
      cases o with
      | some b =>
        simp only [Prod.mk.injEq] at h
        exact Except.noConfusion h.1
      | none =>
        simp only [Prod.mk.injEq] at h
        rw [← h.2.1]

theorem sendBody_state_shape (pat : Option String) (env : SendEnv) (t : BotState)
    (lg : List NetOp) (ht1 : t.connected = true) (ht2 : t.client.isSome = true) :
    (sendBody pat env t lg).2.1.connected = false ∨
    ((sendBody pat env t lg).2.1.connected = true ∧
      (sendBody pat env t lg).2.1.client.isSome = true) := by
  unfold sendBody
  cases hs : env.sendRes with
  | raised m => left; rfl
  | errored m => left; rfl
  | good =>
    cases hc : correlate env.adminUser env.queryTime pat env.batches with
    | mk o saw =>
      cases o with
      | some b =>
        right
        simp only
        exact ⟨ht1, ht2⟩
      | none => left; rfl

/-- Every final state of send_admin_command is either marked disconnected
or is a connected session with a live client handle. -/
theorem send_state_shape (cmd : String) (pat : Option String) (env : SendEnv) (s : BotState) :
    (send_admin_command cmd pat env s).2.1.connected = false ∨
    ((send_admin_command cmd pat env s).2.1.connected = true ∧
      (send_admin_command cmd pat env s).2.1.client.isSome = true) := by
  unfold send_admin_command
  cases hE : ensure_connected false env.now1 env.ensure1 s with
  | mk r1 rest =>
    cases rest with
    | mk s1 log0 =>
      cases r1 with
      | error e =>
        simp only
        exact Or.inl (ensure_error_state false env.now1 env.ensure1 s s1 e log0 hE).1
      | ok u =>
        simp only
        obtain ⟨hc1, hc2⟩ := ensure_ok_state false env.now1 env.ensure1 s s1 u log0 hE
        cases hp : env.preSync1 with
        | raised m => exact Or.inl rfl
        | good => exact sendBody_state_shape pat env s1 _ hc1 hc2
        | errored m =>
          cases hE2 : ensure_connected true env.now2 env.ensure2 s1 with
          | mk r2 rest2 =>
            cases rest2 with
            | mk s2 log1 =>
              cases r2 with
              | error e2 => exact Or.inl rfl
              | ok u2 =>
                simp only
                obtain ⟨hd1, hd2⟩ :=
                  ensure_ok_state true env.now2 env.ensure2 s1 s2 u2 log1 hE2
                cases hp2 : env.preSync2 with
                | raised m2 => exact Or.inl rfl
                | good => exact sendBody_state_shape pat env s2 _ hd1 hd2
                | errored m2 => exact sendBody_state_shape pat env s2 _ hd1 hd2

/-- A TimeoutError outcome of send_admin_command always leaves the
connected flag cleared. -/
theorem send_timeout_state (cmd : String) (pat : Option String) (env : SendEnv)
    (s s' : BotState) (log : List NetOp)
    (h : send_admin_command cmd pat env s = (Except.error Err.timeoutErr, s', log)) :
    s'.connected = false := by
  unfold send_admin_command at h
  cases hE : ensure_connected false env.now1 env.ensure1 s with
  | mk r1 rest =>
    cases rest with
    | mk s1 log0 =>
      rw [hE] at h
      cases r1 with
      | error e =>
        simp only [Prod.mk.injEq] at h
        have hnt := ensure_not_timeout false env.now1 env.ensure1 s
        rw [hE] at hnt
        simp only at hnt
        injection h.1 with h1'
        rw [h1'] at hnt
        exact absurd rfl hnt
      | ok u =>
        simp only at h
        cases hp : env.preSync1 with
        | raised m =>
          rw [hp] at h
          simp only [Prod.mk.injEq] at h
          injection h.1 with h1'
          exact Err.noConfusion h1'
        | good =>
          rw [hp] at h
          exact sendBody_timeout_eq pat env s1 _ s' log h
        | errored m =>
          rw [hp] at h
          cases hE2 : ensure_connected true env.now2 env.ensure2 s1 with
          | mk r2 rest2 =>
            cases rest2 with
            | mk s2 log1 =>
              rw [hE2] at h
              cases r2 with
              | error e2 =>
                simp only [Prod.mk.injEq] at h
                have hnt := ensure_not_timeout true env.now2 env.ensure2 s1
                rw [hE2] at hnt
                simp only at hnt
                injection h.1 with h1'
                rw [h1'] at hnt
                exact absurd rfl hnt
              | ok u2 =>
                simp only at h
                cases hp2 : env.preSync2 with
                | raised m2 =>
                  rw [hp2] at h
                  simp only [Prod.mk.injEq] at h
                  injection h.1 with h1'
                  exact Err.noConfusion h1'
                | good =>
                  rw [hp2] at h
                  exact sendBody_timeout_eq pat env s2 _ s' log h
                | errored m2 =>
                  rw [hp2] at h
                  exact sendBody_timeout_eq pat env s2 _ s' log h

/-- When the pre-send cursor-fixing sync raises, send_admin_command
propagates an error, never performs the room_send, and leaves the session
marked disconnected. -/
theorem presend_raise_shape (cmd : String) (pat : Option String) (env : SendEnv)
    (s : BotState) (m : String) (h : env.preSync1 = SyncRes.raised m) :
    (∃ e, (send_admin_command cmd pat env s).1 = Except.error e) ∧
    NetOp.sendMsg ∉ (send_admin_command cmd pat env s).2.2 ∧
    (send_admin_command cmd pat env s).2.1.connected = false := by
  unfold send_admin_command
  cases hE : ensure_connected false env.now1 env.ensure1 s with
  | mk r1 rest =>
    cases rest with
    | mk s1 log0 =>
      cases r1 with
      | error e =>
        simp only
        refine ⟨⟨e, rfl⟩, ?_, ?_⟩
        · have hn := ensure_no_send false env.now1 env.ensure1 s
          rw [hE] at hn
          exact hn
        · exact (ensure_error_state false env.now1 env.ensure1 s s1 e log0 hE).1
      | ok u =>
        rw [h]
        simp only
        refine ⟨⟨Err.other m, rfl⟩, ?_, rfl⟩
        have hn := ensure_no_send false env.now1 env.ensure1 s
        rw [hE] at hn
        simp only at hn
        simp only [List.mem_append]
        rintro (hc | hc)
        · exact hn hc
        · simp at hc

/-! ### Lemmas about the streaming scan -/

theorem roomLoop_banned_mem (env : ScanEnv) (rooms : List RoomSummary) (tb : Nat)
    (r : RoomSummary) (hr : r ∈ rooms) (hm : ¬ r.members < 3)
    (hb : check_banned_room_name env.banFile r.name = true) :
    ∃ k, ScanEv.bannedFound r.room_id r.name r.members
        (get_matched_pattern env.banFile r.name) k ∈ (roomLoop env rooms tb).1 := by
  induction rooms generalizing tb with
  | nil => cases hr
  | cons rh rs ih =>
    rcases List.mem_cons.mp hr with rfl | hr'
    · simp only [roomLoop]
      rw [if_neg hm, if_pos hb]
      exact ⟨tb + 1, List.mem_cons_self _ _⟩
    · by_cases h1 : rh.members < 3
      · simp only [roomLoop]
        rw [if_pos h1]
        exact ih tb hr'
      · by_cases h2 : check_banned_room_name env.banFile rh.name = true
        · simp only [roomLoop]
          rw [if_neg h1, if_pos h2]
          obtain ⟨k, hk⟩ := ih (tb + 1) hr'
          exact ⟨k, List.mem_cons_of_mem _ (List.mem_append_right _ hk)⟩
        · simp only [roomLoop]
          rw [if_neg h1, if_neg h2]
          exact ih tb hr'

theorem event_generator_complete (env : ScanEnv) (fuel : Nat) (h : env.ensureRes = none) :
    ∃ l tr tb, event_generator env fuel = l ++ [ScanEv.complete tr tb] := by
  refine ⟨ScanEv.starting :: ScanEv.connectedEv :: (pageLoop env fuel 1 0 0).1,
    (pageLoop env fuel 1 0 0).2.1, (pageLoop env fuel 1 0 0).2.2, ?_⟩
  unfold event_generator
  rw [h]

/-! ### Lemmas about the decoders and the ban pattern lookup -/

theorem parseRoomLines_eq_filterMap (ls : List String) :
    parseRoomLines ls = ls.filterMap parseRoomLine := by
  induction ls with
  | nil => rfl
  | cons l rest ih =>
    cases hp : parseRoomLine l <;>
      simp [parseRoomLines, List.filterMap_cons, hp, ih]

theorem parseBanPatterns_ne_empty (c : String) (p : String) (hp : p ∈ parseBanPatterns c) :
    p ≠ "" := by
  unfold parseBanPatterns at hp
  obtain ⟨l, hl, rfl⟩ := List.mem_map.mp hp
  have hf := (List.mem_filter.mp hl).2
  simp only [Bool.and_eq_true, Bool.not_eq_true'] at hf
  intro hc
  rw [hc] at hf
  simp at hf

theorem firstMatchingPattern_eq_find (name : String) (ps : List String) :
    firstMatchingPattern name ps =
      (ps.find? (fun p => reSearchIgnoreCase p name)).getD "" := by
  induction ps with
  | nil => rfl
  | cons p rest ih =>
    by_cases hm : reSearchIgnoreCase p name = true
    · simp [firstMatchingPattern, List.find?_cons, hm]
    · simp [firstMatchingPattern, List.find?_cons, hm, ih]

theorem anyPatternMatches_iff (name : String) (ps : List String)
    (hne : ∀ p ∈ ps, p ≠ "") :
    anyPatternMatches name ps = true ↔ firstMatchingPattern name ps ≠ "" := by
  induction ps with
  | nil => simp [anyPatternMatches, firstMatchingPattern]
  | cons p rest ih =>
    by_cases hm : reSearchIgnoreCase p name = true
    · simp only [anyPatternMatches, firstMatchingPattern, hm, if_true]
      simp [hne p (List.mem_cons_self p rest)]
    · simp only [anyPatternMatches, firstMatchingPattern, hm, if_false]
      exact ih (fun q hq => hne q (List.mem_cons_of_mem _ hq))

/-! ### Claim theorems -/

/-- Claim C1, counterexample: with a connected session and a responder
that never replies, send_admin_command raises TimeoutError but the
session does NOT remain marked connected: the connected flag is cleared
and the next ensure_connected call performs a login. -/
theorem claim_C1_counterexample :
    (send_admin_command "!admin rooms list-rooms 1" none c1Env initBotState).1 =
        Except.error Err.timeoutErr ∧
    (send_admin_command "!admin rooms list-rooms 1" none c1Env initBotState).2.1.connected
        = false ∧
    NetOp.login ∈ (ensure_connected false 101 c4Env2
        (send_admin_command "!admin rooms list-rooms 1" none c1Env initBotState).2.1).2.2 := by
  decide

/-- Claim C1, amended: when no qualifying response arrives within the
timeout budget, send_admin_command raises TimeoutError to the caller and
the session is marked disconnected (the connected flag is cleared), so
the next ensure_connected call performs a reconnect (a login). -/
theorem claim_C1_timeout_disconnects (cmd : String) (pat : Option String) (env : SendEnv)
    (s s' : BotState) (log : List NetOp)
    (h : send_admin_command cmd pat env s = (Except.error Err.timeoutErr, s', log)) :
    s'.connected = false ∧
    ∀ now cenv, NetOp.login ∈ (ensure_connected false now cenv s').2.2 := by
  have h1 := send_timeout_state cmd pat env s s' log h
  exact ⟨h1, fun now cenv => ensure_disconnected_login now cenv s' h1⟩

/-- Witness for claim C1 at a concrete environment. -/
theorem claim_C1_witness :
    (BotState.mk (some 7) false (some 100)).connected = false ∧
    ∀ now cenv, NetOp.login ∈
      (ensure_connected false now cenv (BotState.mk (some 7) false (some 100))).2.2 :=
  claim_C1_timeout_disconnects "cmd" none c1Env initBotState
    (BotState.mk (some 7) false (some 100))
    [NetOp.login, NetOp.join, NetOp.sync, NetOp.sync, NetOp.sendMsg] (by decide)

/-- Claim C2: any body returned by the wait loop of send_admin_command or
by the correlation loop of get_matrix_users comes from a delivered
message event whose sender is the designated responder and whose event
time is at or after the command issue time. -/
theorem claim_C2_correlator_sound :
    (∀ (a : String) (qt : Nat) (pat : Option String) (bs : List Batch) (b : String),
      (correlate a qt pat bs).1 = some b →
      ∃ e ∈ batchesEvents bs, e.sender = a ∧ qt ≤ e.server_timestamp ∧ e.body = b) ∧
    (∀ (a : String) (qt : Nat) (bss : List (List MEvent)) (b : String),
      usersCorrelate a qt bss = some b →
      ∃ e ∈ bss.flatten, e.sender = a ∧ qt ≤ e.server_timestamp ∧ e.body = b) := by
  constructor
  · intro a qt pat bs b h
    obtain ⟨e, he, -, p2, p3, p4⟩ := correlate_sound a qt pat bs b h
    exact ⟨e, he, p2, p3, p4⟩
  · intro a qt bss b h
    obtain ⟨e, he, -, p2, p3, p4⟩ := usersCorrelate_sound a qt bss b h
    exact ⟨e, he, p2, p3, p4⟩

/-- Witness for claim C2: a concrete run with a wrong-sender event and a
too-early admin event, both skipped. -/
theorem claim_C2_witness :
    ∃ e ∈ batchesEvents c2Batches,
      e.sender = "@admin:x" ∧ 5000 ≤ e.server_timestamp ∧ e.body = "result" :=
  claim_C2_correlator_sound.1 "@admin:x" 5000 none c2Batches "result" (by decide)

/-- Claim C3, counterexample: the pre-send cursor-fixing sync returns an
error response, yet send_admin_command does not propagate any error: it
forces a reconnect, retries the sync (which errors again), still sends
the command into the room and returns the response. -/
theorem claim_C3_counterexample :
    c3Env.preSync1 = SyncRes.errored "sync failed" ∧
    (send_admin_command "cmd" none c3Env initBotState).1 = Except.ok "OK" ∧
    NetOp.sendMsg ∈ (send_admin_command "cmd" none c3Env initBotState).2.2 := by
  decide

/-- Claim C3, amended: only when the pre-send sync raises does the error
propagate to the caller with no command message sent (and the session
marked disconnected); a pre-send sync returning an error response instead
triggers one forced reconnect plus a retry sync, after which the command
is sent regardless of the retry outcome. -/
theorem claim_C3_presend_raise (cmd : String) (pat : Option String) (env : SendEnv)
    (s : BotState) (m : String) (h : env.preSync1 = SyncRes.raised m) :
    (∃ e, (send_admin_command cmd pat env s).1 = Except.error e) ∧
    NetOp.sendMsg ∉ (send_admin_command cmd pat env s).2.2 ∧
    (send_admin_command cmd pat env s).2.1.connected = false :=
  presend_raise_shape cmd pat env s m h

/-- Witness for claim C3 at a concrete environment whose pre-send sync
raises. -/
theorem claim_C3_witness :
    (∃ e, (send_admin_command "cmd" none c3RaiseEnv initBotState).1 = Except.error e) ∧
    NetOp.sendMsg ∉ (send_admin_command "cmd" none c3RaiseEnv initBotState).2.2 ∧
    (send_admin_command "cmd" none c3RaiseEnv initBotState).2.1.connected = false :=
  claim_C3_presend_raise "cmd" none c3RaiseEnv initBotState "boom" (by decide)

/-- Claim C4: a successful ensure_connected leaves a state on which a
second ensure_connected call (no force, no staleness beyond 300 seconds,
no intervening failure) performs no network operation at all and returns
the state unchanged; from the freshly initialised bot the first call
performs exactly one login. -/
theorem claim_C4_ensure_idempotent :
    (∀ (env1 env2 : ConnectEnv) (now1 now2 : Nat) (s0 s1 : BotState) (log1 : List NetOp),
      ensure_connected false now1 env1 s0 = (Except.ok (), s1, log1) →
      (∀ la, s1.last_activity = some la → ¬ 300 < now2 - la) →
      ensure_connected false now2 env2 s1 = (Except.ok (), s1, [])) ∧
    (∀ (env1 : ConnectEnv) (now1 : Nat) (s1 : BotState) (log1 : List NetOp),
      ensure_connected false now1 env1 initBotState = (Except.ok (), s1, log1) →
      log1.count NetOp.login = 1) := by
  constructor
  · intro env1 env2 now1 now2 s0 s1 log1 h1 hfresh
    obtain ⟨hc, hcl⟩ := ensure_ok_state false now1 env1 s0 s1 () log1 h1
    exact ensure_connected_noop now2 env2 s1 hc hcl hfresh
  · intro env1 now1 s1 log1 h1
    rw [ensure_init_eq] at h1
    rcases connect_shape env1 initBotState with hsh | ⟨m, lg, hsh⟩
    · rw [hsh] at h1
      simp only [Prod.mk.injEq] at h1
      rw [← h1.2.2]
      rfl
    · rw [hsh] at h1
      simp only at h1
      exact Except.noConfusion (congrArg Prod.fst h1)

/-- Witness for claim C4: from the initial state, one successful connect
then a second call 50 seconds later that does nothing. -/
theorem claim_C4_witness :
    ensure_connected false 150 c4Env2 c4State = (Except.ok (), c4State, []) ∧
    [NetOp.login, NetOp.join, NetOp.sync].count NetOp.login = 1 :=
  ⟨claim_C4_ensure_idempotent.1 c4Env1 c4Env2 100 150 initBotState c4State
      [NetOp.login, NetOp.join, NetOp.sync] (by decide)
      (by
        intro la hla
        simp only [c4State] at hla
        injection hla with h
        omega),
   claim_C4_ensure_idempotent.2 c4Env1 100 c4State
      [NetOp.login, NetOp.join, NetOp.sync] (by decide)⟩

/-- Claim C5: with a response pattern supplied, the wait loop returns
exactly the body of the first eligible responder message (in stream
order) that matches the pattern case-insensitively; eligible messages
that do not match never terminate the wait. -/
theorem claim_C5_pattern_first_match (a : String) (qt : Nat) (p : String) (bs : List Batch) :
    (correlate a qt (some p) bs).1 =
      (((batchesEvents bs).filter
          (fun e => eligB a qt e && reSearchIgnoreCase p e.body)).head?).map MEvent.body :=
  correlate_pattern_eq a qt p bs

/-- Claim C6: a room list body whose lines decode (under the room line
pattern) to exactly three room summaries yields exactly those three
summaries in input line order; non-matching lines are dropped and no
error is raised. -/
theorem claim_C6_room_list_decoder (response : String) (r1 r2 r3 : RoomSummary)
    (h : (splitLines response).filterMap parseRoomLine = [r1, r2, r3]) :
    parse_rooms_response response = [r1, r2, r3] := by
  unfold parse_rooms_response
  rw [parseRoomLines_eq_filterMap, h]

/-- Witness for claim C6: a concrete five line body with banner, junk and
footer lines around three well-formed room lines. -/
theorem claim_C6_witness :
    (splitLines c6Response).filterMap parseRoomLine = [c6r1, c6r2, c6r3] ∧
    parse_rooms_response c6Response = [c6r1, c6r2, c6r3] :=
  ⟨by decide, claim_C6_room_list_decoder c6Response c6r1 c6r2 c6r3 (by decide)⟩

/-- Claim C7: the ban pattern lookup returns the first pattern of the
file (blank and hash-comment lines ignored) matching the room name under
case-insensitive search, and the empty string when nothing matches or the
file is unreadable; check_banned_room_name agrees with a nonempty lookup
result; the dot-star-spam pattern matches the two spam room names and not
the quiet one. -/
theorem claim_C7_ban_pattern_lookup :
    (∀ name, get_matched_pattern none name = "") ∧
    (∀ c name, get_matched_pattern (some c) name =
      ((parseBanPatterns c).find? (fun p => reSearchIgnoreCase p name)).getD "") ∧
    (∀ file name, check_banned_room_name file name = true ↔
      get_matched_pattern file name ≠ "") ∧
    get_matched_pattern (some ".*spam.*") "Free Spam Giveaway" = ".*spam.*" ∧
    get_matched_pattern (some ".*spam.*") "Spamalot Fans" = ".*spam.*" ∧
    get_matched_pattern (some ".*spam.*") "Quiet Room" = "" := by
  refine ⟨fun name => rfl, fun c name => firstMatchingPattern_eq_find name _, ?_,
    by decide, by decide, by decide⟩
  intro file name
  cases file with
  | none => simp [check_banned_room_name, get_matched_pattern]
  | some c =>
    unfold check_banned_room_name get_matched_pattern
    exact anyPatternMatches_iff name _ (fun p hp => parseBanPatterns_ne_empty c p hp)

/-- Claim C8: during the streaming moderation scan a member list timeout
for one room is emitted as a scoped error event without aborting the
scan; every banned room of a page is reported regardless of other rooms
failing; the terminal complete event with the totals is always emitted
when the initial connect succeeds; a full concrete run with one member
timeout still processes the rest of the page and the next page and ends
with the complete event. -/
theorem claim_C8_member_timeout_nonfatal :
    (∀ (env : ScanEnv) (rooms : List RoomSummary) (tb : Nat) (r : RoomSummary),
      r ∈ rooms → ¬ r.members < 3 →
      check_banned_room_name env.banFile r.name = true →
      ∃ k, ScanEv.bannedFound r.room_id r.name r.members
          (get_matched_pattern env.banFile r.name) k ∈ (roomLoop env rooms tb).1) ∧
    (∀ (env : ScanEnv) (fuel : Nat), env.ensureRes = none →
      ∃ l tr tb, event_generator env fuel = l ++ [ScanEv.complete tr tb]) ∧
    event_generator c8Env 5 = c8Expected := by
  refine ⟨?_, ?_, ?_⟩
  · intro env rooms tb r h1 h2 h3
    exact roomLoop_banned_mem env rooms tb r h1 h2 h3
  · intro env fuel h
    exact event_generator_complete env fuel h
  · decide

/-- Witness for claim C8: the banned room whose member fetch times out is
still reported. -/
theorem claim_C8_witness :
    ∃ k, ScanEv.bannedFound "!r1:x" "Spam Palace" 5
        (get_matched_pattern c8Env.banFile "Spam Palace") k ∈
      (roomLoop c8Env [{ room_id := "!r1:x", members := 5, name := "Spam Palace" }] 0).1 :=
  claim_C8_member_timeout_nonfatal.1 c8Env
    [{ room_id := "!r1:x", members := 5, name := "Spam Palace" }] 0
    { room_id := "!r1:x", members := 5, name := "Spam Palace" }
    (by decide) (by decide) (by decide)

/-- Claim C9: the session invariant (connected implies a live client
handle) holds after every operation of the persistent bot, and a failed
connect always resets the state to fully disconnected before its error
propagates. -/
theorem claim_C9_session_invariant :
    (∀ cenv s, botInv s → botInv (_connect cenv s).2.1) ∧
    (∀ s, botInv (_disconnect s).1) ∧
    (∀ f now cenv s, botInv s → botInv (ensure_connected f now cenv s).2.1) ∧
    (∀ cmd pat env s, botInv s → botInv (send_admin_command cmd pat env s).2.1) ∧
    (∀ cenv s e s' log, _connect cenv s = (Except.error e, s', log) →
      s'.connected = false ∧ s'.client = none) := by
  refine ⟨?_, ?_, ?_, ?_, ?_⟩
  · intro cenv s _
    rcases connect_shape cenv s with h | ⟨m, lg, h⟩ <;> rw [h] <;> intro hc
    · rfl
    · exact Bool.noConfusion hc
  · intro s hc
    exact Bool.noConfusion hc
  · intro f now cenv s _
    rcases ensure_shape f now cenv s with ⟨s2, lg, he, h1, h2, -⟩ |
        ⟨m, s2, lg, he, h1, h2, -⟩ <;> rw [he] <;> intro hc
    · exact h2
    · have hcc : s2.connected = true := hc
      rw [h1] at hcc
      exact Bool.noConfusion hcc
  · intro cmd pat env s _
    rcases send_state_shape cmd pat env s with h | ⟨h1, h2⟩
    · intro hc
      have hcc : (send_admin_command cmd pat env s).2.1.connected = true := hc
      rw [h] at hcc
      exact Bool.noConfusion hcc
    · intro _
      exact h2
  · intro cenv s e s' log h
    rcases connect_shape cenv s with hsh | ⟨m, lg, hsh⟩
    · rw [hsh] at h
      exact Except.noConfusion (congrArg Prod.fst h)
    · rw [hsh] at h
      simp only [Prod.mk.injEq] at h
      obtain ⟨-, rfl, -⟩ := h
      exact ⟨rfl, rfl⟩

/-- Witness for claim C9: a concrete failed connect (login raises) leaves
the fully disconnected state. -/
theorem claim_C9_witness :
    (connFail initBotState).connected = false ∧ (connFail initBotState).client = none :=
  claim_C9_session_invariant.2.2.2.2 c9Env initBotState (Err.other "boom")
    (connFail initBotState) [NetOp.login] (by decide)

/-- Claim C10, counterexample: login, join, sync and the deactivation
send all complete without exception, yet deactivate_user returns False
because the subsequent logout raises. -/
theorem claim_C10_counterexample :
    c10Env.loginRes = LoginRes.ok ∧ c10Env.joinRes = CallRes.ok ∧
    c10Env.syncRes = CallRes.ok ∧ c10Env.sendRes = CallRes.ok ∧
    deactivate_user "@bad:example.org" c10Env = Except.ok false := by
  decide

/-- Claim C10, amended: deactivate_user awaits no responder confirmation;
it returns True exactly when login (with a clean response), join, sync,
the deactivation send, the logout and the final close all complete
without exception; on any exception it closes the client and returns
False, and it raises only if that close itself raises. -/
theorem claim_C10_deactivate_result (user : String) (env : DeactivateEnv) :
    (deactivate_user user env = Except.ok true ↔
      (env.loginRes = LoginRes.ok ∧ env.joinRes = CallRes.ok ∧ env.syncRes = CallRes.ok ∧
       env.sendRes = CallRes.ok ∧ env.logoutRes = CallRes.ok ∧
       env.closeMainRes = CallRes.ok)) ∧
    (env.closeExcRes = CallRes.ok → ∀ m, deactivate_user user env ≠ Except.error m) := by
  obtain ⟨l, j, sy, se, lo, cm, ce⟩ := env
  cases l <;> cases j <;> cases sy <;> cases se <;> cases lo <;> cases cm <;> cases ce <;>
    simp [deactivate_user]

/-- Witness for claim C10 at the concrete logout-raising environment. -/
theorem claim_C10_witness :
    deactivate_user "@bad:example.org" c10Env ≠ Except.error "anything" :=
  (claim_C10_deactivate_result "@bad:example.org" c10Env).2 (by decide) "anything"
